import Mathlib

/-!
Verification development for the cryptobrain decision-engine package
(`cryptobrain_v2/core/decision_engine`): a shallow embedding in Lean 4 of the
expected-value calculator (`expected_value.py`), the market analyzer
(`market_analyzer.py`) and the emotion filter (`emotion_filter.py`),
together with theorems settling the behavioural claims about them.

Modelling conventions:
* Python floats are modelled as exact rationals (`ℚ`); `round(x, d)` is
  modelled by round-half-to-even at `d` decimal digits, matching Python's
  rounding mode.
* Python dicts used as loosely typed market contexts are modelled as a
  structure whose fields carry the per-key fallback values the source
  supplies at each `dict.get` site (an absent key and its fallback value
  are observationally identical everywhere in the source).
* Human-readable reasoning / warning strings that interpolate numbers via
  f-string formatting are not modelled (no claim depends on their text);
  reasoning strings that the source builds from string constants only are
  modelled verbatim.
-/

/-- Round-half-to-even of a rational to an integer (Python `round` mode). -/
def roundHalfEven (q : ℚ) : ℤ :=
  if q - ⌊q⌋ < 1/2 then ⌊q⌋
  else if 1/2 < q - ⌊q⌋ then ⌊q⌋ + 1
  else if ⌊q⌋ % 2 = 0 then ⌊q⌋ else ⌊q⌋ + 1

/-- Python `round(q, d)`: round-half-to-even at `d` decimal digits. -/
def roundTo (d : ℕ) (q : ℚ) : ℚ :=
  ((roundHalfEven (q * 10 ^ d) : ℚ)) / 10 ^ d

/-- The `max lo (min hi x)` clamping idiom used throughout the source. -/
def clampQ (lo hi x : ℚ) : ℚ := max lo (min hi x)

/-! ## Expected-value calculator (`expected_value.py`) -/

/-- `Recommendation` enum of `expected_value.py`. -/
inductive Recommendation where
  | ENTER
  | SKIP
  | WAIT
deriving DecidableEq, Repr

/-- `Confidence` enum of `expected_value.py`. -/
inductive Confidence where
  | HIGH
  | MEDIUM
  | LOW
deriving DecidableEq, Repr

/-- `TradeSetup` dataclass.  The derived fields (`risk_percent`,
`reward_percent` and the risk:reward ratio, the source's
`risk_reward_ratio`, here named `riskReward`) start at the caller-supplied
values (dataclass default 0) and are overwritten by
`calculateRiskReward`. -/
structure TradeSetup where
  symbol : String
  side : String
  entry_price : ℚ
  stop_loss : ℚ
  take_profit : ℚ
  risk_percent : ℚ := 0
  reward_percent : ℚ := 0
  riskReward : ℚ := 0
deriving DecidableEq, Repr

/-- `TradeSetup.calculate_risk_reward`: recomputes the derived fields from the
prices (an in-place mutation in the source, modelled functionally).  When
`entry_price ≤ 0` the method returns early, leaving the fields untouched. -/
def calculateRiskReward (s : TradeSetup) : TradeSetup :=
  if s.entry_price ≤ 0 then s
  else
    let riskP :=
      if s.side = "long" then |s.entry_price - s.stop_loss| / s.entry_price * 100
      else |s.stop_loss - s.entry_price| / s.entry_price * 100
    let rewardP :=
      if s.side = "long" then |s.take_profit - s.entry_price| / s.entry_price * 100
      else |s.entry_price - s.take_profit| / s.entry_price * 100
    { s with
      risk_percent := riskP
      reward_percent := rewardP
      riskReward := if riskP > 0 then rewardP / riskP else 0 }

/-- The market-context dict handed to `ExpectedValueCalculator`.  Each field
default is the fallback the source supplies at its `context.get` site, so the
all-defaults value models the empty dict `{}`.  (The source also reads a
`trend_strength` key into an unused local; it is omitted.) -/
structure ContextDict where
  rsi : ℚ := 50
  macd_signal : String := "neutral"
  ma_alignment : String := "neutral"
  trend_direction : String := "sideways"
  trend_strength_value : String := "moderate"
  distance_to_support_pct : ℚ := 100
  distance_to_resistance_pct : ℚ := 100
  volatility_regime : String := "normal"
deriving DecidableEq, Repr

/-- The empty market context (`market_context=None` → `{}`). -/
def emptyContext : ContextDict := {}

/-- The support/resistance tail of `_get_pattern_probability` (the part after
the side-specific RSI / MA-alignment / trend rules fall through).
Probability constants are the `default_pattern_probs` table entries. -/
def srPattern (s : TradeSetup) (ctx : ContextDict) : ℚ :=
  if s.side = "long" ∧ ctx.distance_to_support_pct < 2 then 0.55
  else if s.side = "short" ∧ ctx.distance_to_resistance_pct < 2 then 0.53
  else 0.50

/-- `ExpectedValueCalculator._get_pattern_probability`. -/
def getPatternProbability (s : TradeSetup) (ctx : ContextDict) : ℚ :=
  if s.side = "long" then
    if ctx.rsi < 30 then 0.58
    else if ctx.ma_alignment = "bullish" then 0.52
    else if ctx.trend_direction = "down" then 0.42
    else srPattern s ctx
  else
    if 70 < ctx.rsi then 0.55
    else if ctx.ma_alignment = "bearish" then 0.52
    else if ctx.trend_direction = "up" then 0.42
    else srPattern s ctx

/-- `ExpectedValueCalculator._calculate_technical_score`. -/
def calculateTechnicalScore (s : TradeSetup) (ctx : ContextDict) : ℚ :=
  let rsi := ctx.rsi
  let rsiAdj :=
    if s.side = "long" then
      if rsi < 30 then 0.15 else if rsi < 40 then 0.10
      else if 70 < rsi then -0.15 else if 60 < rsi then -0.08 else 0
    else
      if 70 < rsi then 0.15 else if 60 < rsi then 0.10
      else if rsi < 30 then -0.15 else if rsi < 40 then -0.08 else 0
  let macdAdj :=
    if s.side = "long" then
      if ctx.macd_signal = "bullish" then 0.10
      else if ctx.macd_signal = "bearish" then -0.10 else 0
    else
      if ctx.macd_signal = "bearish" then 0.10
      else if ctx.macd_signal = "bullish" then -0.10 else 0
  let maAdj :=
    if s.side = "long" then
      if ctx.ma_alignment = "bullish" then 0.08
      else if ctx.ma_alignment = "bearish" then -0.08 else 0
    else
      if ctx.ma_alignment = "bearish" then 0.08
      else if ctx.ma_alignment = "bullish" then -0.08 else 0
  clampQ 0.2 0.8 (0.5 + rsiAdj + macdAdj + maAdj)

/-- `ExpectedValueCalculator._calculate_trend_alignment`.  (The source's
`isinstance(strength_value, str)` guard always holds here since the field is
a string.) -/
def calculateTrendAlignment (s : TradeSetup) (ctx : ContextDict) : ℚ :=
  let dir := ctx.trend_direction
  let dirAdj :=
    if s.side = "long" then
      if dir = "up" then 0.2 else if dir = "down" then -0.15 else 0
    else
      if dir = "down" then 0.2 else if dir = "up" then -0.15 else 0
  let score := 0.5 + dirAdj
  let score2 :=
    if ctx.trend_strength_value = "strong" then
      if (s.side = "long" ∧ dir = "up") ∨ (s.side = "short" ∧ dir = "down")
      then score + 0.1 else score - 0.1
    else if ctx.trend_strength_value = "weak" then 0.5 + (score - 0.5) * 0.5
    else score
  clampQ 0.2 0.8 score2

/-- `ExpectedValueCalculator._adjust_for_risk_reward`. -/
def adjustForRiskReward (rr : ℚ) : ℚ :=
  if rr ≤ 1.0 then 0.55
  else if rr ≤ 1.5 then 0.52
  else if rr ≤ 2.0 then 0.50
  else if rr ≤ 2.5 then 0.47
  else if rr ≤ 3.0 then 0.45
  else 0.40

/-- `ExpectedValueCalculator._estimate_win_probability`: weighted average of
the four sub-scores (weights 0.30 / 0.30 / 0.25 / 0.15), clamped to
[0.20, 0.80]. -/
def estimateWinProbability (s : TradeSetup) (ctx : ContextDict) : ℚ :=
  clampQ 0.20 0.80
    (getPatternProbability s ctx * 0.30
      + calculateTechnicalScore s ctx * 0.30
      + calculateTrendAlignment s ctx * 0.25
      + adjustForRiskReward s.riskReward * 0.15)

/-- `ExpectedValueCalculator._calculate_kelly`: Half-Kelly clamped to
[0, MAX_KELLY] with MAX_KELLY = 0.25. -/
def calculateKelly (winProb rr : ℚ) : ℚ :=
  if rr ≤ 0 then 0
  else clampQ 0 0.25 ((winProb - (1 - winProb) / rr) / 2)

/-- `ExpectedValueCalculator._make_decision`, the strict-order decision
cascade (thresholds MIN_EV = 0.5, MIN_RISK_REWARD = 1.5, MIN_WIN_PROB =
0.35).  The context argument is read only to append an extreme-volatility
warning string to the reasoning, which is not modelled; the reasoning list is
therefore dropped from the result. -/
def makeDecision (ev winProb rr : ℚ) (_ctx : ContextDict) :
    Recommendation × Confidence :=
  if ev < 0 then (Recommendation.SKIP, Confidence.HIGH)
  else if ev < 0.5 then (Recommendation.SKIP, Confidence.MEDIUM)
  else if rr < 1.0 then (Recommendation.SKIP, Confidence.HIGH)
  else if rr < 1.5 then (Recommendation.WAIT, Confidence.MEDIUM)
  else if winProb < 0.35 then (Recommendation.WAIT, Confidence.LOW)
  else if 2.0 < ev ∧ 2.0 ≤ rr ∧ 0.55 ≤ winProb then
    (Recommendation.ENTER, Confidence.HIGH)
  else if 1.0 < ev ∧ 1.5 ≤ rr ∧ 0.45 ≤ winProb then
    (Recommendation.ENTER, Confidence.MEDIUM)
  else (Recommendation.ENTER, Confidence.LOW)

/-- The risk:reward ratio as computed inside `analyze` (after the
`calculate_risk_reward` mutation). -/
def riskRewardOf (s : TradeSetup) : ℚ := (calculateRiskReward s).riskReward

/-- The win probability as computed inside `analyze`. -/
def winProbabilityOf (s : TradeSetup) (ctx : ContextDict) : ℚ :=
  estimateWinProbability (calculateRiskReward s) ctx

/-- The expected value as computed inside `analyze`:
`win_probability * reward_percent - (1 - win_probability) * risk_percent`. -/
def expectedValueOf (s : TradeSetup) (ctx : ContextDict) : ℚ :=
  winProbabilityOf s ctx * (calculateRiskReward s).reward_percent
    - (1 - winProbabilityOf s ctx) * (calculateRiskReward s).risk_percent

/-- `EVAnalysis` dataclass (the human-readable `reasoning` list, whose
entries interpolate numbers, is not modelled). -/
structure EVAnalysis where
  expected_value : ℚ
  win_probability : ℚ
  riskReward : ℚ
  kelly_fraction : ℚ
  recommendation : Recommendation
  confidence : Confidence
  risk_percent : ℚ
  reward_percent : ℚ
  optimal_position_pct : ℚ
deriving DecidableEq, Repr

/-- `ExpectedValueCalculator.analyze`.  (The calculator's `historical_data`
constructor argument is never read on this path; the pattern probabilities
come from the fixed `default_pattern_probs` table.) -/
def evAnalyze (setup : TradeSetup) (ctx : ContextDict) : EVAnalysis :=
  let s := calculateRiskReward setup
  let winProb := winProbabilityOf setup ctx
  let ev := expectedValueOf setup ctx
  let kelly := calculateKelly winProb s.riskReward
  let dec := makeDecision ev winProb s.riskReward ctx
  let optimalPosition := min (kelly * 100) 5.0
  { expected_value := roundTo 2 ev
    win_probability := roundTo 3 winProb
    riskReward := roundTo 2 s.riskReward
    kelly_fraction := roundTo 4 kelly
    recommendation := dec.1
    confidence := dec.2
    risk_percent := roundTo 2 s.risk_percent
    reward_percent := roundTo 2 s.reward_percent
    optimal_position_pct := roundTo 2 optimalPosition }

/-- The result dict of `ExpectedValueCalculator.quick_evaluate`. -/
structure QuickResult where
  ev : ℚ
  rr : ℚ
  win_prob : ℚ
  kelly : ℚ
  verdict : String
  confidence : String
deriving DecidableEq, Repr

/-- The `verdict_map` table of `quick_evaluate`. -/
def verdictMap : Recommendation → String
  | Recommendation.ENTER => "✅ 진입 가능"
  | Recommendation.SKIP => "❌ 진입 금지"
  | Recommendation.WAIT => "⏸️ 조건 대기"

/-- `.value` of the `Confidence` enum. -/
def confidenceValue : Confidence → String
  | Confidence.HIGH => "high"
  | Confidence.MEDIUM => "medium"
  | Confidence.LOW => "low"

/-- `ExpectedValueCalculator.quick_evaluate`: builds a `TradeSetup` from the
raw arguments (derived fields at their dataclass defaults) and runs `analyze`
with no market context. -/
def quickEvaluate (entry stop target : ℚ) (side symbol : String) : QuickResult :=
  let setup : TradeSetup :=
    { symbol := symbol, side := side, entry_price := entry,
      stop_loss := stop, take_profit := target }
  let analysis := evAnalyze setup emptyContext
  { ev := analysis.expected_value
    rr := analysis.riskReward
    win_prob := analysis.win_probability
    kelly := analysis.kelly_fraction
    verdict := verdictMap analysis.recommendation
    confidence := confidenceValue analysis.confidence }

/-! ## Market analyzer (`market_analyzer.py`)

The pandas indicator pipeline of `_calculate_indicators` is modelled over a
candle list with exact rational arithmetic.  Only the column values the
analysis methods actually read are computed (the last row, and for MACD also
the second-to-last row); the Bollinger-band columns are dead code in the
source (computed, never read) and are omitted.  `NaN` cells produced by
rolling windows never reach the analysis methods on the length ≥ 50 branch,
so the source's `pd.notna` guards are statically true there and are noted at
each site. -/

/-- One OHLCV candle (the timestamp column is never read by the analyzer). -/
structure Candle where
  open_price : ℚ
  high : ℚ
  low : ℚ
  close : ℚ
  volume : ℚ
deriving DecidableEq, Repr

/-- `MarketRegime` enum (values are the source's Korean display strings). -/
inductive MarketRegime where
  | STRONG_BULL
  | BULL
  | NEUTRAL
  | BEAR
  | STRONG_BEAR
  | HIGH_VOLATILITY
deriving DecidableEq, Repr

/-- `TrendStrength` enum. -/
inductive TrendStrength where
  | STRONG
  | MODERATE
  | WEAK
  | NO_TREND
deriving DecidableEq, Repr

/-- `.value` of `TrendStrength` (the source's Korean display strings). -/
def trendStrengthValue : TrendStrength → String
  | TrendStrength.STRONG => "강함"
  | TrendStrength.MODERATE => "보통"
  | TrendStrength.WEAK => "약함"
  | TrendStrength.NO_TREND => "추세 없음"

/-- `MarketContext` dataclass. -/
structure MarketContext where
  regime : MarketRegime
  trend_direction : String
  trend_strength : TrendStrength
  trend_strength_value : String
  rsi : ℚ
  rsi_signal : String
  macd_signal : String
  ma_alignment : String
  nearest_support : ℚ
  nearest_resistance : ℚ
  distance_to_support_pct : ℚ
  distance_to_resistance_pct : ℚ
  atr_percent : ℚ
  volatility_regime : String
  volume_trend : String
  volume_anomaly : Bool
  bullish_score : ℚ
  bearish_score : ℚ
  recommended_strategy : String
  reasoning : List String
  current_price : ℚ
deriving DecidableEq, Repr

/-- `MarketAnalyzer._get_default_context` (returned when `len(df) < 50`). -/
def getDefaultContext : MarketContext :=
  { regime := MarketRegime.NEUTRAL
    trend_direction := "sideways"
    trend_strength := TrendStrength.NO_TREND
    trend_strength_value := "weak"
    rsi := 50
    rsi_signal := "neutral"
    macd_signal := "neutral"
    ma_alignment := "neutral"
    nearest_support := 0
    nearest_resistance := 0
    distance_to_support_pct := 0
    distance_to_resistance_pct := 0
    atr_percent := 2
    volatility_regime := "normal"
    volume_trend := "stable"
    volume_anomaly := false
    bullish_score := 50
    bearish_score := 50
    recommended_strategy := "wait"
    reasoning := ["데이터 부족 - 분석 불가"]
    current_price := 0 }

/-- The last `n` elements of a list (the trailing rolling window at the final
row). -/
def lastN (n : ℕ) (l : List α) : List α := l.drop (l.length - n)

/-- Arithmetic mean; used only on nonempty windows. -/
def meanQ (l : List ℚ) : ℚ := l.sum / l.length

/-- Last element with default 0 (`df.iloc[-1][col]`). -/
def lastD (l : List ℚ) : ℚ := l.getLast?.getD 0

/-- Second-to-last element with default 0 (`df.iloc[-2][col]`). -/
def secondLastD (l : List ℚ) : ℚ := l.dropLast.getLast?.getD 0

/-- The close column. -/
def closes (cs : List Candle) : List ℚ := cs.map Candle.close

/-- The volume column. -/
def volumes (cs : List Candle) : List ℚ := cs.map Candle.volume

/-- Latest close (`current_price`). -/
def lastClose (cs : List Candle) : ℚ := lastD (closes cs)

/-- `df['close'].rolling(n).mean()` at the last row. -/
def smaLast (n : ℕ) (cs : List Candle) : ℚ := meanQ (lastN n (closes cs))

/-- `SMA200` at the last row: window `min(200, len(df))`, so it is defined
(non-NaN) for every nonempty series. -/
def sma200Last (cs : List Candle) : ℚ := smaLast (min 200 cs.length) cs

/-- `ewm(span=span, adjust=False).mean()` over a series:
`e₀ = x₀`, `eᵢ = α xᵢ + (1-α) eᵢ₋₁` with `α = 2/(span+1)`. -/
def ewmSeries (span : ℕ) : List ℚ → List ℚ
  | [] => []
  | x :: rest =>
      let α : ℚ := 2 / ((span : ℚ) + 1)
      List.scanl (fun e v => α * v + (1 - α) * e) x rest

/-- The `MACD` column: `EMA12 - EMA26`. -/
def macdSeries (cs : List Candle) : List ℚ :=
  List.zipWith (· - ·) (ewmSeries 12 (closes cs)) (ewmSeries 26 (closes cs))

/-- The `MACD_Signal` column: `ewm(span=9)` of the MACD column. -/
def macdSignalSeries (cs : List Candle) : List ℚ :=
  ewmSeries 9 (macdSeries cs)

/-- The `MACD_Hist` column: `MACD - MACD_Signal`. -/
def macdHistSeries (cs : List Candle) : List ℚ :=
  List.zipWith (· - ·) (macdSeries cs) (macdSignalSeries cs)

/-- The per-row gains `delta.where(delta > 0, 0)` used by the RSI: the first
row's NaN delta is replaced by 0 by the `where`, the rest are
`max(closeᵢ - closeᵢ₋₁, 0)`. -/
def rsiGains (cs : List Candle) : List ℚ :=
  0 :: List.zipWith (fun a b => max (b - a) 0) (closes cs) (closes cs).tail

/-- The per-row losses `-delta.where(delta < 0, 0)`. -/
def rsiLosses (cs : List Candle) : List ℚ :=
  0 :: List.zipWith (fun a b => max (a - b) 0) (closes cs) (closes cs).tail

/-- The RSI column at the last row after `fillna(50)`: when the 14-row mean
loss is 0 the ratio `rs` is NaN (`loss.replace(0, nan)`) and the RSI falls
back to 50, otherwise `100 - 100/(1 + gain/loss)`. -/
def rsiLast (cs : List Candle) : ℚ :=
  let g := meanQ (lastN 14 (rsiGains cs))
  let l := meanQ (lastN 14 (rsiLosses cs))
  if l = 0 then 50 else 100 - 100 / (1 + g / l)

/-- True-range rows after the first candle:
`max(high-low, |high-prev_close|, |low-prev_close|)`. -/
def trAux (prev : Candle) : List Candle → List ℚ
  | [] => []
  | c :: rest =>
      max (c.high - c.low) (max |c.high - prev.close| |c.low - prev.close|)
        :: trAux c rest

/-- The true-range column.  At the first row the shifted close is NaN and the
pandas row-wise `max` skips NaN cells, leaving `high - low`. -/
def trList : List Candle → List ℚ
  | [] => []
  | c :: rest => (c.high - c.low) :: trAux c rest

/-- The `ATR` column (`tr.rolling(14).mean()`) at the last row. -/
def atrLast (cs : List Candle) : ℚ := meanQ (lastN 14 (trList cs))

/-- `atr_pct = (atr / price) * 100 if price > 0 else 2` as computed in both
`analyze` and `_determine_regime` (the `pd.notna(atr)` conjunct holds for
every series of length ≥ 14). -/
def atrPctLast (cs : List Candle) : ℚ :=
  if lastClose cs > 0 then atrLast cs / lastClose cs * 100 else 2

/-- `MarketAnalyzer._determine_regime`.  `SMA200` is non-NaN for nonempty
series, so the `pd.notna(sma200)` conjunct reduces to `sma200 > 0`; in the
fallback branch `distance_200` stays 0. -/
def determineRegime (cs : List Candle) : MarketRegime :=
  let price := lastClose cs
  let sma200 := sma200Last cs
  let above := if sma200 > 0 then price > sma200 else price > smaLast 50 cs
  let distance : ℚ := if sma200 > 0 then (price - sma200) / sma200 * 100 else 0
  let rsi := rsiLast cs
  let atrPct := atrPctLast cs
  if atrPct > 5 then MarketRegime.HIGH_VOLATILITY
  else if above ∧ distance > 15 ∧ rsi > 55 then MarketRegime.STRONG_BULL
  else if above ∧ distance > 0 then MarketRegime.BULL
  else if ¬above ∧ distance < -15 ∧ rsi < 45 then MarketRegime.STRONG_BEAR
  else if ¬above then MarketRegime.BEAR
  else MarketRegime.NEUTRAL

/-- `MarketAnalyzer._analyze_trend`.  `SMA20`/`SMA50` are non-NaN at the last
row for series of length ≥ 50 (the only callers), so the `pd.notna` guard is
statically true. -/
def analyzeTrend (cs : List Candle) : String × TrendStrength :=
  let price := lastClose cs
  let sma20 := smaLast 20 cs
  let sma50 := smaLast 50 cs
  let direction :=
    if price > sma20 ∧ sma20 > sma50 then "up"
    else if price < sma20 ∧ sma20 < sma50 then "down"
    else "sideways"
  let strength :=
    if 20 ≤ cs.length then
      let recent := lastN 20 cs
      let upCandles := (recent.filter (fun c => decide (c.close > c.open_price))).length
      let downCandles := 20 - upCandles
      let ratio : ℚ := (max upCandles downCandles : ℕ) / 20
      if ratio > 0.7 then TrendStrength.STRONG
      else if ratio > 0.55 then TrendStrength.MODERATE
      else if ratio > 0.45 then TrendStrength.WEAK
      else TrendStrength.NO_TREND
    else TrendStrength.WEAK
  (direction, strength)

/-- `MarketAnalyzer._analyze_macd`.  The EMA-derived columns are defined at
every row, so the `pd.isna` guard is statically false. -/
def analyzeMacd (cs : List Candle) : String :=
  if cs.length < 2 then "neutral"
  else
    let macd := lastD (macdSeries cs)
    let signal := lastD (macdSignalSeries cs)
    let hist := lastD (macdHistSeries cs)
    let prevMacd := secondLastD (macdSeries cs)
    let prevSignal := secondLastD (macdSignalSeries cs)
    let prevHist := secondLastD (macdHistSeries cs)
    if macd > signal ∧ prevMacd ≤ prevSignal then "bullish"
    else if macd < signal ∧ prevMacd ≥ prevSignal then "bearish"
    else if hist > 0 ∧ hist > prevHist then "bullish"
    else if hist < 0 ∧ hist < prevHist then "bearish"
    else "neutral"

/-- `MarketAnalyzer._analyze_ma_alignment`.  The inner `SMA200` comparison in
the source returns "bullish" (resp. "bearish") on both arms and is collapsed
here; the `pd.isna(SMA20/SMA50)` guard is statically false for length ≥ 50. -/
def analyzeMaAlignment (cs : List Candle) : String :=
  let price := lastClose cs
  let sma20 := smaLast 20 cs
  let sma50 := smaLast 50 cs
  if price > sma20 ∧ sma20 > sma50 then "bullish"
  else if price < sma20 ∧ sma20 < sma50 then "bearish"
  else "neutral"

/-- Maximum of a rational list (0 on the empty list; used nonempty). -/
def maxQ : List ℚ → ℚ
  | [] => 0
  | x :: xs => xs.foldl max x

/-- Minimum of a rational list (0 on the empty list; used nonempty). -/
def minQ : List ℚ → ℚ
  | [] => 0
  | x :: xs => xs.foldl min x

/-- Last candle's low with default 0. -/
def lastLow (cs : List Candle) : ℚ := lastD (cs.map Candle.low)

/-- Last candle's high with default 0. -/
def lastHigh (cs : List Candle) : ℚ := lastD (cs.map Candle.high)

/-- `MarketAnalyzer._find_sr_levels`: nearest bound over the last 50 candles
(support = max low strictly below the close, else overall min low;
resistance = min high strictly above the close, else overall max high). -/
def findSrLevels (cs : List Candle) : ℚ × ℚ :=
  if cs.length < 20 then (lastLow cs, lastHigh cs)
  else
    let recent := lastN 50 cs
    let price := lastClose cs
    let lows := recent.map Candle.low
    let highs := recent.map Candle.high
    let supports := lows.filter (fun x => decide (x < price))
    let resistances := highs.filter (fun x => decide (price < x))
    let support := if supports ≠ [] then maxQ supports else minQ lows
    let resistance := if resistances ≠ [] then minQ resistances else maxQ highs
    (support, resistance)

/-- `MarketAnalyzer._classify_volatility`. -/
def classifyVolatility (atrPercent : ℚ) : String :=
  if atrPercent < 1.5 then "low"
  else if atrPercent < 3 then "normal"
  else if atrPercent < 5 then "high"
  else "extreme"

/-- The least-squares slope `np.polyfit(range(5), y, 1)[0]` of five samples. -/
def polySlope5 : List ℚ → ℚ
  | [y0, y1, _, y3, y4] => (2 * (y4 - y0) + (y3 - y1)) / 10
  | _ => 0

/-- `MarketAnalyzer._analyze_volume`.  `Vol_SMA` is non-NaN at the last row
for length ≥ 20, so only its `== 0` guard remains; the last-5 window always
has five rows there. -/
def analyzeVolume (cs : List Candle) : String × Bool :=
  if cs.length < 20 then ("stable", false)
  else
    let volSma := meanQ (lastN 20 (volumes cs))
    let currentVol := lastD (volumes cs)
    if volSma = 0 then ("stable", false)
    else
      let slope := polySlope5 (lastN 5 (volumes cs))
      let volTrend :=
        if slope > volSma * 0.1 then "increasing"
        else if slope < -(volSma * 0.1) then "decreasing"
        else "stable"
      (volTrend, decide (currentVol > volSma * 2))

/-- `MarketAnalyzer._calculate_bias_scores`: signed contributions added to
the 50/50 baseline, each score clamped independently to [0, 100]. -/
def calculateBiasScores (rsi : ℚ) (macdSig maAlign trendDir volTrend : String) :
    ℚ × ℚ :=
  let rsiAdj : ℚ × ℚ :=
    if rsi < 30 then (20, -10)
    else if rsi < 40 then (10, -5)
    else if 70 < rsi then (-10, 20)
    else if 60 < rsi then (-5, 10)
    else (0, 0)
  let macdAdj : ℚ × ℚ :=
    if macdSig = "bullish" then (15, -5)
    else if macdSig = "bearish" then (-5, 15)
    else (0, 0)
  let maAdj : ℚ × ℚ :=
    if maAlign = "bullish" then (15, -10)
    else if maAlign = "bearish" then (-10, 15)
    else (0, 0)
  let trendAdj : ℚ × ℚ :=
    if trendDir = "up" then (10, 0)
    else if trendDir = "down" then (0, 10)
    else (0, 0)
  let volAdj : ℚ × ℚ :=
    if volTrend = "increasing" then
      if trendDir = "up" then (5, 0)
      else if trendDir = "down" then (0, 5)
      else (0, 0)
    else (0, 0)
  let bull := 50 + rsiAdj.1 + macdAdj.1 + maAdj.1 + trendAdj.1 + volAdj.1
  let bear := 50 + rsiAdj.2 + macdAdj.2 + maAdj.2 + trendAdj.2 + volAdj.2
  (clampQ 0 100 bull, clampQ 0 100 bear)

/-- `MarketAnalyzer._recommend_strategy`.  Reasoning lines that interpolate
numbers via f-string formatting are modelled by their constant message
prefixes; lines built from constants and enum values alone are verbatim. -/
def recommendStrategy (regime : MarketRegime) (trendDir : String)
    (trendStr : TrendStrength) (bullScore bearScore : ℚ)
    (price support resistance : ℚ) (volRegime : String) :
    String × List String :=
  if regime = MarketRegime.HIGH_VOLATILITY ∨ volRegime = "extreme" then
    ("wait",
      ["⚠️ 고변동성 시장 - 포지션 축소 또는 관망 권장",
       "   변동성: " ++ volRegime])
  else if trendStr = TrendStrength.WEAK ∨ trendStr = TrendStrength.NO_TREND then
    ("wait",
      ["⏸️ 추세 불분명 - 명확한 방향 확인까지 대기",
       "   추세 강도: " ++ trendStrengthValue trendStr,
       "   매수 점수: "])
  else if trendDir = "up" ∧ bullScore > 60 then
    let distToSupport : ℚ := if price > 0 then (price - support) / price * 100 else 100
    ("long",
      ["✅ 상승 추세 확인 (강도: " ++ trendStrengthValue trendStr ++ ")",
       "✅ 매수 유리 점수: ",
       if distToSupport < 3 then "✅ 지지선 근처 " else "ℹ️ 지지선까지 "])
  else if trendDir = "down" ∧ bearScore > 60 then
    let distToResistance : ℚ :=
      if price > 0 then (resistance - price) / price * 100 else 100
    ("short",
      ["✅ 하락 추세 확인 (강도: " ++ trendStrengthValue trendStr ++ ")",
       "✅ 매도 유리 점수: "]
        ++ (if distToResistance < 3 then ["✅ 저항선 근처 "] else []))
  else if bullScore - bearScore > 20 then
    ("long", ["📈 매수 우위 "])
  else if bearScore - bullScore > 20 then
    ("short", ["📉 매도 우위 "])
  else
    ("wait", ["ℹ️ 조건 불충족 - 더 좋은 기회 대기", "   매수 점수: "])

/-- The `len(df) >= 50` branch of `MarketAnalyzer.analyze`. -/
def marketAnalyzeMain (cs : List Candle) : MarketContext :=
  let price := lastClose cs
  let regime := determineRegime cs
  let trendDir := (analyzeTrend cs).1
  let trendStr := (analyzeTrend cs).2
  let rsi := rsiLast cs
  let rsiSignal :=
    if rsi < 30 then "oversold" else if 70 < rsi then "overbought" else "neutral"
  let macdSig := analyzeMacd cs
  let maAlign := analyzeMaAlignment cs
  let support := (findSrLevels cs).1
  let resistance := (findSrLevels cs).2
  let distSupport : ℚ :=
    if support > 0 then (price - support) / price * 100 else 100
  let distResistance : ℚ :=
    if resistance > 0 then (resistance - price) / price * 100 else 100
  let atrPct := atrPctLast cs
  let volRegime := classifyVolatility atrPct
  let volTrend := (analyzeVolume cs).1
  let volAnomaly := (analyzeVolume cs).2
  let bullScore := (calculateBiasScores rsi macdSig maAlign trendDir volTrend).1
  let bearScore := (calculateBiasScores rsi macdSig maAlign trendDir volTrend).2
  let strategy :=
    (recommendStrategy regime trendDir trendStr bullScore bearScore
      price support resistance volRegime).1
  let reasoning :=
    (recommendStrategy regime trendDir trendStr bullScore bearScore
      price support resistance volRegime).2
  { regime := regime
    trend_direction := trendDir
    trend_strength := trendStr
    trend_strength_value := trendStrengthValue trendStr
    rsi := roundTo 1 rsi
    rsi_signal := rsiSignal
    macd_signal := macdSig
    ma_alignment := maAlign
    nearest_support := roundTo 0 support
    nearest_resistance := roundTo 0 resistance
    distance_to_support_pct := roundTo 2 distSupport
    distance_to_resistance_pct := roundTo 2 distResistance
    atr_percent := roundTo 2 atrPct
    volatility_regime := volRegime
    volume_trend := volTrend
    volume_anomaly := volAnomaly
    bullish_score := roundTo 1 bullScore
    bearish_score := roundTo 1 bearScore
    recommended_strategy := strategy
    reasoning := reasoning
    current_price := roundTo 0 price }

/-- `MarketAnalyzer.analyze`: the `len(df) < 50` guard returns the fixed
neutral default context; `trend_strength_value` is `trend_str.value.lower()`
and `.lower()` is the identity on the Korean enum value strings. -/
def marketAnalyze (cs : List Candle) : MarketContext :=
  if cs.length < 50 then getDefaultContext else marketAnalyzeMain cs

/-! ## Emotion filter (`emotion_filter.py`)

The six category pattern lists contain literal phrases plus a handful of
two-part `A.*B` regexes; both forms are modelled (`.*` is modelled as "any
characters", which on newline-free text coincides with the regex).  Matching
runs on `user_message.lower()`, modelled by a character-wise `toLower`
(the identity on the Korean pattern text).  The `warnings` and
`alternative_advice` outputs are human-readable strings with no effect on
the scores and are not modelled. -/

/-- One search pattern: a literal phrase, or a two-part `A.*B` regex. -/
inductive Pat where
  | lit (s : String)
  | seq (a b : String)
deriving DecidableEq, Repr

/-- Does `needle` occur as a contiguous segment of `hay`
(`re.search` of a literal)? -/
def hasSeg (needle : List Char) : List Char → Bool
  | [] => needle.isPrefixOf ([] : List Char)
  | c :: rest => needle.isPrefixOf (c :: rest) || hasSeg needle rest

/-- Does `a` occur, followed anywhere later by `b` (`re.search` of
`A.*B`)? -/
def hasSeqSeg (a b : List Char) : List Char → Bool
  | [] => a.isPrefixOf ([] : List Char) && hasSeg b ([] : List Char)
  | c :: rest =>
      (a.isPrefixOf (c :: rest) && hasSeg b ((c :: rest).drop a.length))
        || hasSeqSeg a b rest

/-- `re.search(pattern, text)` for the pattern shapes appearing in the
category lists. -/
def patMatches (p : Pat) (text : List Char) : Bool :=
  match p with
  | Pat.lit s => hasSeg s.data text
  | Pat.seq a b => hasSeqSeg a.data b.data text

/-- `user_message.lower()` as the character list the matcher runs on. -/
def lowerChars (msg : String) : List Char := msg.data.map Char.toLower

/-- `EmotionFilter.FOMO_PATTERNS`. -/
def fomoPatterns : List Pat :=
  [Pat.lit "지금 안 사면", Pat.lit "놓치", Pat.lit "늦기 전에", Pat.lit "다들 사",
   Pat.lit "급등", Pat.lit "폭등", Pat.lit "더 오르기 전에", Pat.lit "올라가는데",
   Pat.lit "달리는데", Pat.lit "펌핑", Pat.lit "미친듯이 오르", Pat.lit "지금 들어가야",
   Pat.lit "기회를 놓", Pat.lit "빨리 사", Pat.lit "얼른 사", Pat.lit "지금이 마지막",
   Pat.lit "못 타", Pat.lit "뒤늦게"]

/-- `EmotionFilter.FEAR_PATTERNS`. -/
def fearPatterns : List Pat :=
  [Pat.lit "폭락", Pat.lit "급락", Pat.lit "망했", Pat.lit "다 팔아",
   Pat.lit "전부 정리", Pat.lit "더 떨어지기 전에", Pat.lit "물렸", Pat.lit "어떡해",
   Pat.lit "손절해야", Pat.lit "다 날아가", Pat.lit "끝났", Pat.lit "바닥이 없",
   Pat.lit "무섭", Pat.lit "공포", Pat.lit "패닉", Pat.lit "지옥", Pat.lit "나락"]

/-- `EmotionFilter.REVENGE_PATTERNS`. -/
def revengePatterns : List Pat :=
  [Pat.lit "복구", Pat.lit "원금 회복", Pat.lit "만회", Pat.lit "본전",
   Pat.lit "다시 들어가", Pat.lit "손실 메꾸", Pat.lit "잃은 거 되찾",
   Pat.seq "방금 손절" "다시", Pat.seq "털리" "재진입", Pat.lit "원금으로",
   Pat.lit "찾아야"]

/-- `EmotionFilter.OVERCONFIDENCE_PATTERNS`. -/
def overconfidencePatterns : List Pat :=
  [Pat.lit "올인", Pat.lit "전재산", Pat.lit "몰빵", Pat.lit "레버리지",
   Pat.lit "10배", Pat.lit "20배", Pat.lit "100배", Pat.lit "확실",
   Pat.lit "무조건", Pat.lit "절대", Pat.lit "100%", Pat.lit "반드시",
   Pat.lit "틀림없", Pat.lit "무조건 오른다", Pat.lit "무조건 간다"]

/-- `EmotionFilter.GREED_PATTERNS`. -/
def greedPatterns : List Pat :=
  [Pat.lit "10배", Pat.lit "100배", Pat.lit "대박", Pat.lit "한방",
   Pat.lit "인생역전", Pat.lit "부자", Pat.lit "떡상", Pat.lit "달나라",
   Pat.lit "억만장자", Pat.lit "x100", Pat.lit "x10", Pat.lit "로또"]

/-- `EmotionFilter.SUNK_COST_PATTERNS`. -/
def sunkCostPatterns : List Pat :=
  [Pat.lit "물타기", Pat.seq "추가 매수" "-", Pat.seq "평단" "낮추",
   Pat.seq "물렸는데" "더 사", Pat.seq "손실" "추가", Pat.lit "평균 단가",
   Pat.lit "비중 늘"]

/-- `EmotionFilter._detect_pattern`:
`min(1.0, matched_pattern_count / 3)`. -/
def detectPattern (msg : String) (patterns : List Pat) : ℚ :=
  let matchCount := (patterns.filter (fun p => patMatches p (lowerChars msg))).length
  min 1 ((matchCount : ℚ) / 3)

/-- The inline `re.search(r"(레버리지|10배|20배|100배)", message_lower)`
leverage check inside the overconfidence block. -/
def leverageMention (msg : String) : Bool :=
  hasSeg ("레버리지".data) (lowerChars msg) || hasSeg ("10배".data) (lowerChars msg)
    || hasSeg ("20배".data) (lowerChars msg) || hasSeg ("100배".data) (lowerChars msg)

/-- The `recent_market_move` dict argument (`{"change_24h": float, ...}`);
`Option.none` models a missing/falsy argument. -/
structure MarketMove where
  change_24h : ℚ
deriving DecidableEq, Repr

/-- The `last_trade_result` dict argument (`{"pnl": float, "pnl_pct":
float}`); only `pnl` affects the scores (`pnl_pct` feeds a warning string
only). -/
structure TradeResult where
  pnl : ℚ
deriving DecidableEq, Repr

/-- `EmotionAnalysis` (the `warnings` and `alternative_advice` strings are
not modelled; `emotion_details` is the per-category sub-score dict as an
association list in insertion order). -/
structure EmotionAnalysis where
  detected_emotions : List String
  emotion_score : ℚ
  is_rational : Bool
  should_block : Bool
  emotion_details : List (String × ℚ)
deriving DecidableEq, Repr

/-- `EmotionFilter.analyze_request`.  The elapsed time since the last trade
is in hours; a `some 0` duration is falsy in Python (`timedelta(0)`), so the
revenge time boost fires only for a nonzero duration below 4 hours. -/
def analyzeRequest (msg : String) (recentMarketMove : Option MarketMove)
    (lastTradeResult : Option TradeResult) (timeSinceLastTrade : Option ℚ) :
    EmotionAnalysis :=
  let fomo := detectPattern msg fomoPatterns
  let fear := detectPattern msg fearPatterns
  let revenge := detectPattern msg revengePatterns
  let overconf := detectPattern msg overconfidencePatterns
  let greed := detectPattern msg greedPatterns
  let sunkCost := detectPattern msg sunkCostPatterns
  let fomoContrib : ℚ :=
    if fomo > 0 then
      fomo * 0.25 +
        (match recentMarketMove with
          | some m => if m.change_24h > 10 then 0.2 else 0
          | none => 0)
    else 0
  let fearContrib : ℚ := if fear > 0 then fear * 0.25 else 0
  let revengeContrib : ℚ :=
    if revenge > 0 then
      revenge * 0.30 +
        (match lastTradeResult with
          | some r => if r.pnl < 0 then 0.25 else 0
          | none => 0) +
        (match timeSinceLastTrade with
          | some t => if t ≠ 0 ∧ t < 4 then 0.1 else 0
          | none => 0)
    else 0
  let overconfContrib : ℚ :=
    if overconf > 0 then
      overconf * 0.35 + (if leverageMention msg then 0.2 else 0)
    else 0
  let greedContrib : ℚ := if greed > 0 then greed * 0.20 else 0
  let sunkCostContrib : ℚ := if sunkCost > 0 then sunkCost * 0.20 else 0
  let totalScore :=
    fomoContrib + fearContrib + revengeContrib + overconfContrib
      + greedContrib + sunkCostContrib
  let emotionScore := min 1 totalScore
  let detected :=
    (if fomo > 0 then ["fomo"] else []) ++ (if fear > 0 then ["fear"] else [])
      ++ (if revenge > 0 then ["revenge"] else [])
      ++ (if overconf > 0 then ["overconfidence"] else [])
      ++ (if greed > 0 then ["greed"] else [])
      ++ (if sunkCost > 0 then ["sunk_cost"] else [])
  let details :=
    (if fomo > 0 then [("fomo", fomo)] else [])
      ++ (if fear > 0 then [("fear", fear)] else [])
      ++ (if revenge > 0 then [("revenge", revenge)] else [])
      ++ (if overconf > 0 then [("overconfidence", overconf)] else [])
      ++ (if greed > 0 then [("greed", greed)] else [])
      ++ (if sunkCost > 0 then [("sunk_cost", sunkCost)] else [])
  { detected_emotions := detected
    emotion_score := roundTo 2 emotionScore
    is_rational := decide (emotionScore < 0.25)
    should_block := decide (0.6 ≤ emotionScore)
    emotion_details := details }

/-- One `EmotionTracker.history` entry (the wall-clock `datetime.now()`
timestamp is never read and is not modelled). -/
structure TrackEntry where
  emotions : List String
  score : ℚ
  blocked : Bool
deriving DecidableEq, Repr

/-- `EmotionTracker` session state. -/
structure EmotionTracker where
  history : List TrackEntry
  consecutive_blocks : ℕ
deriving DecidableEq, Repr

/-- A fresh `EmotionTracker()` (empty history, zero streak). -/
def emptyTracker : EmotionTracker := { history := [], consecutive_blocks := 0 }

/-- `EmotionTracker.record`: appends the entry and updates the
consecutive-block streak (increment on a blocking result, reset to 0
otherwise). -/
def recordAnalysis (t : EmotionTracker) (a : EmotionAnalysis) : EmotionTracker :=
  { history :=
      t.history ++ [{ emotions := a.detected_emotions, score := a.emotion_score,
                      blocked := a.should_block }]
    consecutive_blocks := if a.should_block then t.consecutive_blocks + 1 else 0 }

/-- `EmotionTracker.should_force_break`: streak of at least 3. -/
def shouldForceBreak (t : EmotionTracker) : Bool := decide (3 ≤ t.consecutive_blocks)

/-! ## Spec-side definition for the strategy-recommendation claim -/

/-- The strategy-priority cascade exactly as the specification words it
(first match wins): HIGH_VOLATILITY regime or extreme volatility ⇒ wait;
WEAK or NO_TREND strength ⇒ wait; trend up and bullish score > 60 ⇒ long;
trend down and bearish score > 60 ⇒ short; score gap > 20 ⇒ that direction;
otherwise wait.  Stated from the spec, to be compared with
`recommendStrategy` from the source. -/
def specRecommendedStrategy (regime : MarketRegime) (trendDir : String)
    (trendStr : TrendStrength) (bullScore bearScore : ℚ)
    (volRegime : String) : String :=
  if regime = MarketRegime.HIGH_VOLATILITY ∨ volRegime = "extreme" then "wait"
  else if trendStr = TrendStrength.WEAK ∨ trendStr = TrendStrength.NO_TREND then
    "wait"
  else if trendDir = "up" ∧ bullScore > 60 then "long"
  else if trendDir = "down" ∧ bearScore > 60 then "short"
  else if bullScore - bearScore > 20 then "long"
  else if bearScore - bullScore > 20 then "short"
  else "wait"

/-! ## Concrete sample inputs used by witnesses and counterexamples -/

/-- The "bad setup" from the source's own test block: entry 100,000,000,
stop 95,000,000, target 102,000,000, long. -/
def badSetup : TradeSetup :=
  { symbol := "BTC/KRW", side := "long", entry_price := 100000000,
    stop_loss := 95000000, take_profit := 102000000 }

/-- The market context from the source's second test case:
RSI 72, downtrend. -/
def badCtx : ContextDict := { rsi := 72, trend_direction := "down" }

/-- A long setup with risk 1%, reward 0.9% (risk:reward 0.9 < 1). -/
def subOneRRSetup : TradeSetup :=
  { symbol := "BTC", side := "long", entry_price := 1000,
    stop_loss := 990, take_profit := 1009 }

/-- A maximally favourable context (oversold RSI, bullish MACD and MA
alignment, strong uptrend) driving the win probability high. -/
def favourableCtx : ContextDict :=
  { rsi := 25, macd_signal := "bullish", ma_alignment := "bullish",
    trend_direction := "up", trend_strength_value := "strong" }

/-- A long setup with risk 0.5%, reward 0.2% (risk:reward 0.4 < 1). -/
def smallRRSetup : TradeSetup :=
  { symbol := "BTC", side := "long", entry_price := 1000,
    stop_loss := 995, take_profit := 1002 }

/-- A 50-row flat candle series (length exactly 50). -/
def demoCandles : List Candle :=
  List.replicate 50 { open_price := 100, high := 101, low := 99,
                      close := 100, volume := 1000 }

/-- A blocking emotion-analysis record (`should_block = True`). -/
def blockedSample : EmotionAnalysis :=
  { detected_emotions := ["revenge"], emotion_score := 0.7,
    is_rational := false, should_block := true,
    emotion_details := [("revenge", 1)] }

/-- A non-blocking emotion-analysis record (`should_block = False`). -/
def calmSample : EmotionAnalysis :=
  { detected_emotions := [], emotion_score := 0,
    is_rational := true, should_block := false, emotion_details := [] }

/-- The TradeSetup that `quick_evaluate` builds from its raw arguments
(derived fields at their dataclass defaults). -/
def quickSetup (entry stop target : ℚ) (side symbol : String) : TradeSetup :=
  { symbol := symbol, side := side, entry_price := entry,
    stop_loss := stop, take_profit := target }

/-! ## Shared lemmas -/

theorem le_roundHalfEven (n : ℤ) (q : ℚ) (h : (n : ℚ) ≤ q) :
    n ≤ roundHalfEven q := by
  have hf : n ≤ ⌊q⌋ := Int.le_floor.mpr h
  unfold roundHalfEven
  split_ifs <;> omega

theorem roundHalfEven_le (m : ℤ) (q : ℚ) (h : q ≤ (m : ℚ)) :
    roundHalfEven q ≤ m := by
  have hf : ⌊q⌋ ≤ m := by
    calc ⌊q⌋ ≤ ⌊(m : ℚ)⌋ := Int.floor_le_floor h
    _ = m := Int.floor_intCast m
  have hstep : ¬(q - ⌊q⌋ < 1/2) → ⌊q⌋ + 1 ≤ m := by
    intro hge
    rcases lt_or_eq_of_le hf with hlt | heq
    · omega
    · exfalso
      apply hge
      have hq : q - (⌊q⌋ : ℚ) ≤ 0 := by
        rw [heq]
        linarith
      linarith
  unfold roundHalfEven
  split_ifs with h1 h2 h3
  · exact hf
  · exact hstep h1
  · exact hf
  · exact hstep h1

theorem le_roundTo (d : ℕ) (n : ℤ) (q : ℚ) (h : (n : ℚ) / 10 ^ d ≤ q) :
    (n : ℚ) / 10 ^ d ≤ roundTo d q := by
  have hp : (0 : ℚ) < 10 ^ d := by positivity
  have h1 : (n : ℚ) ≤ q * 10 ^ d := (div_le_iff₀ hp).mp h
  have h2 : n ≤ roundHalfEven (q * 10 ^ d) := le_roundHalfEven n _ h1
  unfold roundTo
  exact (div_le_div_iff_of_pos_right hp).mpr (by exact_mod_cast h2)

theorem roundTo_le (d : ℕ) (m : ℤ) (q : ℚ) (h : q ≤ (m : ℚ) / 10 ^ d) :
    roundTo d q ≤ (m : ℚ) / 10 ^ d := by
  have hp : (0 : ℚ) < 10 ^ d := by positivity
  have h1 : q * 10 ^ d ≤ (m : ℚ) := (le_div_iff₀ hp).mp h
  have h2 : roundHalfEven (q * 10 ^ d) ≤ m := roundHalfEven_le m _ h1
  unfold roundTo
  exact (div_le_div_iff_of_pos_right hp).mpr (by exact_mod_cast h2)

theorem roundTo_zero (d : ℕ) : roundTo d 0 = 0 := by
  unfold roundTo roundHalfEven
  norm_num

theorem le_clampQ (lo hi x : ℚ) : lo ≤ clampQ lo hi x := le_max_left lo _

theorem clampQ_le (lo hi x : ℚ) (h : lo ≤ hi) : clampQ lo hi x ≤ hi :=
  max_le h (min_le_left hi x)

theorem estimateWinProbability_mem (s : TradeSetup) (ctx : ContextDict) :
    1/5 ≤ estimateWinProbability s ctx ∧ estimateWinProbability s ctx ≤ 4/5 := by
  unfold estimateWinProbability
  constructor
  · rw [show (1/5 : ℚ) = 0.20 by norm_num]
    exact le_clampQ _ _ _
  · rw [show (4/5 : ℚ) = 0.80 by norm_num]
    exact clampQ_le _ _ _ (by norm_num)

theorem calculateKelly_mem (wp rr : ℚ) :
    0 ≤ calculateKelly wp rr ∧ calculateKelly wp rr ≤ 1/4 := by
  unfold calculateKelly
  split_ifs
  · norm_num
  · constructor
    · exact le_clampQ _ _ _
    · rw [show (1/4 : ℚ) = 0.25 by norm_num]
      exact clampQ_le _ _ _ (by norm_num)

theorem calculateBiasScores_mem (rsi : ℚ)
    (macdSig maAlign trendDir volTrend : String) :
    0 ≤ (calculateBiasScores rsi macdSig maAlign trendDir volTrend).1
      ∧ (calculateBiasScores rsi macdSig maAlign trendDir volTrend).1 ≤ 100
      ∧ 0 ≤ (calculateBiasScores rsi macdSig maAlign trendDir volTrend).2
      ∧ (calculateBiasScores rsi macdSig maAlign trendDir volTrend).2 ≤ 100 := by
  refine ⟨?_, ?_, ?_, ?_⟩
  · exact le_clampQ _ _ _
  · exact clampQ_le _ _ _ (by norm_num)
  · exact le_clampQ _ _ _
  · exact clampQ_le _ _ _ (by norm_num)

theorem calculateRiskReward_idem (s : TradeSetup) :
    calculateRiskReward (calculateRiskReward s) = calculateRiskReward s := by
  by_cases h : s.entry_price ≤ 0
  · simp [calculateRiskReward, h]
  · simp [calculateRiskReward, h]

/-! ## Claim theorems -/

/-- C1: For every TradeSetup and every market context, if the computed
expected value (win_probability × reward_percent − (1 − win_probability) ×
risk_percent) is negative then `analyze` returns recommendation SKIP, and no
input combination yields ENTER with a negative expected value. -/
theorem negative_ev_forces_skip (s : TradeSetup) (ctx : ContextDict) :
    (expectedValueOf s ctx < 0 →
      (evAnalyze s ctx).recommendation = Recommendation.SKIP)
    ∧ ((evAnalyze s ctx).recommendation = Recommendation.ENTER →
      0 ≤ expectedValueOf s ctx) := by
  have hrec : (evAnalyze s ctx).recommendation
      = (makeDecision (expectedValueOf s ctx) (winProbabilityOf s ctx)
          (riskRewardOf s) ctx).1 := rfl
  constructor
  · intro hneg
    rw [hrec]
    unfold makeDecision
    rw [if_pos hneg]
  · intro henter
    by_contra hpos
    push_neg at hpos
    rw [hrec] at henter
    unfold makeDecision at henter
    rw [if_pos hpos] at henter
    exact absurd henter (by decide)

/-- C1 witness: the source's own "bad setup" test case has a negative
expected value, and the analysis recommends SKIP. -/
theorem negative_ev_forces_skip_witness :
    expectedValueOf badSetup badCtx < 0
    ∧ (evAnalyze badSetup badCtx).recommendation = Recommendation.SKIP := by
  have hev : expectedValueOf badSetup badCtx < 0 := by
    norm_num +decide [expectedValueOf, winProbabilityOf, calculateRiskReward,
      estimateWinProbability, getPatternProbability, srPattern,
      calculateTechnicalScore, calculateTrendAlignment, adjustForRiskReward,
      clampQ, badSetup, badCtx]
  exact ⟨hev, (negative_ev_forces_skip badSetup badCtx).1 hev⟩

/-- C2 counterexample: a long setup with risk:reward 0.9 < 1 analyzed in a
maximally favourable context is SKIPped with MEDIUM confidence, not HIGH:
its expected value (0.32335) falls in [0, 0.5), so the minimum-EV branch
fires before the risk:reward < 1.0 branch. -/
theorem subunit_rr_not_always_high :
    riskRewardOf subOneRRSetup < 1
    ∧ (evAnalyze subOneRRSetup favourableCtx).recommendation = Recommendation.SKIP
    ∧ (evAnalyze subOneRRSetup favourableCtx).confidence ≠ Confidence.HIGH := by
  have hrr : riskRewardOf subOneRRSetup = 9/10 := by
    norm_num +decide [riskRewardOf, calculateRiskReward, subOneRRSetup]
  have hwp : winProbabilityOf subOneRRSetup favourableCtx = 1393/2000 := by
    norm_num +decide [winProbabilityOf, calculateRiskReward,
      estimateWinProbability, getPatternProbability, srPattern,
      calculateTechnicalScore, calculateTrendAlignment, adjustForRiskReward,
      clampQ, subOneRRSetup, favourableCtx]
  have hev : expectedValueOf subOneRRSetup favourableCtx = 6467/20000 := by
    rw [expectedValueOf, hwp]
    norm_num +decide [calculateRiskReward, subOneRRSetup]
  have hrec : (evAnalyze subOneRRSetup favourableCtx).recommendation
      = (makeDecision (expectedValueOf subOneRRSetup favourableCtx)
          (winProbabilityOf subOneRRSetup favourableCtx)
          (riskRewardOf subOneRRSetup) favourableCtx).1 := rfl
  have hconf : (evAnalyze subOneRRSetup favourableCtx).confidence
      = (makeDecision (expectedValueOf subOneRRSetup favourableCtx)
          (winProbabilityOf subOneRRSetup favourableCtx)
          (riskRewardOf subOneRRSetup) favourableCtx).2 := rfl
  refine ⟨by rw [hrr]; norm_num, ?_, ?_⟩
  · rw [hrec, hev, hwp, hrr]
    norm_num [makeDecision]
  · rw [hconf, hev, hwp, hrr]
    norm_num [makeDecision]
    decide

/-- C2 (amended): for every TradeSetup whose computed risk:reward ratio is
below 1.0, `analyze` returns SKIP regardless of the market context and all
other inputs; the confidence is determined by the computed expected value:
MEDIUM exactly when it lies in [0, 0.5) (the earlier minimum-EV branch fires
first), and HIGH otherwise (expected value negative, or at least 0.5 so the
risk:reward branch itself fires). -/
theorem subunit_rr_forces_skip (s : TradeSetup) (ctx : ContextDict)
    (h : riskRewardOf s < 1) :
    (evAnalyze s ctx).recommendation = Recommendation.SKIP
    ∧ ((0 ≤ expectedValueOf s ctx ∧ expectedValueOf s ctx < 0.5
        ∧ (evAnalyze s ctx).confidence = Confidence.MEDIUM)
      ∨ ((expectedValueOf s ctx < 0 ∨ 0.5 ≤ expectedValueOf s ctx)
        ∧ (evAnalyze s ctx).confidence = Confidence.HIGH)) := by
  have hrec : (evAnalyze s ctx).recommendation
      = (makeDecision (expectedValueOf s ctx) (winProbabilityOf s ctx)
          (riskRewardOf s) ctx).1 := rfl
  have hconf : (evAnalyze s ctx).confidence
      = (makeDecision (expectedValueOf s ctx) (winProbabilityOf s ctx)
          (riskRewardOf s) ctx).2 := rfl
  rw [hrec, hconf]
  unfold makeDecision
  by_cases h1 : expectedValueOf s ctx < 0
  · rw [if_pos h1]
    exact ⟨rfl, Or.inr ⟨Or.inl h1, rfl⟩⟩
  · rw [if_neg h1]
    by_cases h2 : expectedValueOf s ctx < 0.5
    · rw [if_pos h2]
      exact ⟨rfl, Or.inl ⟨le_of_not_lt h1, h2, rfl⟩⟩
    · rw [if_neg h2]
      have h3 : riskRewardOf s < (1.0 : ℚ) := by
        rw [show (1.0 : ℚ) = 1 by norm_num]
        exact h
      rw [if_pos h3]
      exact ⟨rfl, Or.inr ⟨Or.inr (le_of_not_lt h2), rfl⟩⟩

/-- C2 witness: a setup with risk:reward 0.4 < 1 is SKIPped. -/
theorem subunit_rr_forces_skip_witness :
    riskRewardOf smallRRSetup < 1
    ∧ ((evAnalyze smallRRSetup emptyContext).recommendation = Recommendation.SKIP
      ∧ ((0 ≤ expectedValueOf smallRRSetup emptyContext
          ∧ expectedValueOf smallRRSetup emptyContext < 0.5
          ∧ (evAnalyze smallRRSetup emptyContext).confidence
              = Confidence.MEDIUM)
        ∨ ((expectedValueOf smallRRSetup emptyContext < 0
            ∨ 0.5 ≤ expectedValueOf smallRRSetup emptyContext)
          ∧ (evAnalyze smallRRSetup emptyContext).confidence
              = Confidence.HIGH))) := by
  have h : riskRewardOf smallRRSetup < 1 := by
    norm_num +decide [riskRewardOf, calculateRiskReward, smallRRSetup]
  exact ⟨h, subunit_rr_forces_skip smallRRSetup emptyContext h⟩

/-- C3: for every TradeSetup and every market context, the returned
EVAnalysis has win_probability in [0.20, 0.80], kelly_fraction in
[0, 0.25] and optimal_position_pct in [0, 5.0]. -/
theorem ev_analysis_fields_bounded (s : TradeSetup) (ctx : ContextDict) :
    1/5 ≤ (evAnalyze s ctx).win_probability
    ∧ (evAnalyze s ctx).win_probability ≤ 4/5
    ∧ 0 ≤ (evAnalyze s ctx).kelly_fraction
    ∧ (evAnalyze s ctx).kelly_fraction ≤ 1/4
    ∧ 0 ≤ (evAnalyze s ctx).optimal_position_pct
    ∧ (evAnalyze s ctx).optimal_position_pct ≤ 5 := by
  have hwp : (evAnalyze s ctx).win_probability
      = roundTo 3 (winProbabilityOf s ctx) := rfl
  have hke : (evAnalyze s ctx).kelly_fraction
      = roundTo 4 (calculateKelly (winProbabilityOf s ctx) (riskRewardOf s)) := rfl
  have hop : (evAnalyze s ctx).optimal_position_pct
      = roundTo 2 (min (calculateKelly (winProbabilityOf s ctx)
          (riskRewardOf s) * 100) 5.0) := rfl
  have hw := estimateWinProbability_mem (calculateRiskReward s) ctx
  have hk := calculateKelly_mem (winProbabilityOf s ctx) (riskRewardOf s)
  have hwp1 : 1/5 ≤ winProbabilityOf s ctx := hw.1
  have hwp2 : winProbabilityOf s ctx ≤ 4/5 := hw.2
  refine ⟨?_, ?_, ?_, ?_, ?_, ?_⟩
  · rw [hwp]
    have := le_roundTo 3 200 (winProbabilityOf s ctx) (by push_cast; linarith)
    push_cast at this
    linarith
  · rw [hwp]
    have := roundTo_le 3 800 (winProbabilityOf s ctx) (by push_cast; linarith)
    push_cast at this
    linarith
  · rw [hke]
    have := le_roundTo 4 0 (calculateKelly (winProbabilityOf s ctx)
      (riskRewardOf s)) (by push_cast; linarith [hk.1])
    push_cast at this
    linarith
  · rw [hke]
    have := roundTo_le 4 2500 (calculateKelly (winProbabilityOf s ctx)
      (riskRewardOf s)) (by push_cast; linarith [hk.2])
    push_cast at this
    linarith
  · rw [hop]
    have hmin : (0 : ℚ) ≤ min (calculateKelly (winProbabilityOf s ctx)
        (riskRewardOf s) * 100) 5.0 :=
      le_min (by nlinarith [hk.1]) (by norm_num)
    have := le_roundTo 2 0 (min (calculateKelly (winProbabilityOf s ctx)
      (riskRewardOf s) * 100) 5.0) (by push_cast; linarith)
    push_cast at this
    linarith
  · rw [hop]
    have hmin : min (calculateKelly (winProbabilityOf s ctx)
        (riskRewardOf s) * 100) 5.0 ≤ (5 : ℚ) := by
      have h5 := min_le_right (calculateKelly (winProbabilityOf s ctx)
        (riskRewardOf s) * 100) (5.0 : ℚ)
      have he : (5.0 : ℚ) = 5 := by norm_num
      linarith [he ▸ h5]
    have := roundTo_le 2 500 (min (calculateKelly (winProbabilityOf s ctx)
      (riskRewardOf s) * 100) 5.0) (by push_cast; linarith)
    push_cast at this
    linarith

/-- C4 counterexample: for a short candle series the returned reasoning list
is the Korean message list, not the English list ["insufficient data"] the
claim states. -/
theorem short_series_reasoning_text :
    (marketAnalyze []).reasoning ≠ (["insufficient data"] : List String)
    ∧ (marketAnalyze []).reasoning = ["데이터 부족 - 분석 불가"] := by
  refine ⟨by decide, by decide⟩

/-- C4 (amended): for every candle series of length under 50, `analyze`
returns the fixed neutral default MarketContext (no error path exists):
regime NEUTRAL, rsi/macd/ma signals all neutral, bullish and bearish scores
both 50, recommended strategy wait, and reasoning equal to the single-entry
Korean list ["데이터 부족 - 분석 불가"] ("insufficient data - analysis
unavailable"), not the English string "insufficient data". -/
theorem short_series_default_context (cs : List Candle)
    (h : cs.length < 50) :
    marketAnalyze cs = getDefaultContext
    ∧ (marketAnalyze cs).regime = MarketRegime.NEUTRAL
    ∧ (marketAnalyze cs).trend_direction = "sideways"
    ∧ (marketAnalyze cs).rsi_signal = "neutral"
    ∧ (marketAnalyze cs).macd_signal = "neutral"
    ∧ (marketAnalyze cs).ma_alignment = "neutral"
    ∧ (marketAnalyze cs).bullish_score = 50
    ∧ (marketAnalyze cs).bearish_score = 50
    ∧ (marketAnalyze cs).recommended_strategy = "wait"
    ∧ (marketAnalyze cs).reasoning = ["데이터 부족 - 분석 불가"] := by
  have hd : marketAnalyze cs = getDefaultContext := by
    unfold marketAnalyze
    rw [if_pos h]
  rw [hd]
  refine ⟨rfl, by decide, by decide, by decide, by decide, by decide,
    by decide, by decide, by decide, by decide⟩

/-- C4 witness: the empty candle series. -/
theorem short_series_default_context_witness :
    ([] : List Candle).length < 50
    ∧ (marketAnalyze [] = getDefaultContext
      ∧ (marketAnalyze []).regime = MarketRegime.NEUTRAL
      ∧ (marketAnalyze []).trend_direction = "sideways"
      ∧ (marketAnalyze []).rsi_signal = "neutral"
      ∧ (marketAnalyze []).macd_signal = "neutral"
      ∧ (marketAnalyze []).ma_alignment = "neutral"
      ∧ (marketAnalyze []).bullish_score = 50
      ∧ (marketAnalyze []).bearish_score = 50
      ∧ (marketAnalyze []).recommended_strategy = "wait"
      ∧ (marketAnalyze []).reasoning = ["데이터 부족 - 분석 불가"]) :=
  ⟨by decide, short_series_default_context [] (by decide)⟩

/-- C5: for every combination of regime, trend direction, trend strength,
bias scores and volatility regime (and any price/support/resistance), the
recommended strategy equals the specification's priority cascade with first
match winning. -/
theorem strategy_priority_order (regime : MarketRegime) (trendDir : String)
    (trendStr : TrendStrength) (bullScore bearScore : ℚ)
    (price support resistance : ℚ) (volRegime : String) :
    (recommendStrategy regime trendDir trendStr bullScore bearScore
        price support resistance volRegime).1
      = specRecommendedStrategy regime trendDir trendStr bullScore bearScore
          volRegime := by
  unfold recommendStrategy specRecommendedStrategy
  split_ifs <;> rfl

/-- C6: `analyze` is deterministic: a second call with the identical
TradeSetup (as mutated in place by the first call's `calculate_risk_reward`)
and the identical market context returns a field-for-field identical
EVAnalysis. -/
theorem analyze_deterministic (s : TradeSetup) (ctx : ContextDict) :
    evAnalyze (calculateRiskReward s) ctx = evAnalyze s ctx := by
  simp only [evAnalyze, winProbabilityOf, expectedValueOf,
    calculateRiskReward_idem]

theorem foldl_record_blocks (l : List EmotionAnalysis) :
    (l.foldl recordAnalysis emptyTracker).consecutive_blocks
      = (l.reverse.takeWhile (fun a => a.should_block)).length := by
  induction l using List.reverseRecOn with
  | nil => rfl
  | append_singleton l a ih =>
      rw [List.foldl_append, List.reverse_append]
      cases hb : a.should_block
      · simp [recordAnalysis, hb, List.takeWhile]
      · simp [recordAnalysis, hb, List.takeWhile, ih]

theorem takeWhile_length_three {α : Type} (p : α → Bool) (xs : List α) :
    3 ≤ (xs.takeWhile p).length ↔ 3 ≤ xs.length ∧ (xs.take 3).all p = true := by
  match xs with
  | [] => simp
  | [a] => cases hpa : p a <;> simp [List.takeWhile, hpa]
  | [a, b] =>
      cases hpa : p a <;> cases hpb : p b <;> simp [List.takeWhile, hpa, hpb]
  | a :: b :: c :: rest =>
      cases hpa : p a <;> cases hpb : p b <;> cases hpc : p c <;>
        simp [List.takeWhile, hpa, hpb, hpc]

/-- C7: `should_force_break` is true exactly when the three most recent
recorded results all blocked (the streak counter increments on each blocked
result), and one non-blocking record resets it to false immediately. -/
theorem emotion_tracker_force_break (l : List EmotionAnalysis) :
    (shouldForceBreak (l.foldl recordAnalysis emptyTracker) = true
      ↔ 3 ≤ l.length
        ∧ (l.reverse.take 3).all (fun a => a.should_block) = true)
    ∧ ∀ a : EmotionAnalysis, a.should_block = false →
        shouldForceBreak
          (recordAnalysis (l.foldl recordAnalysis emptyTracker) a) = false := by
  constructor
  · simp only [shouldForceBreak, foldl_record_blocks, decide_eq_true_eq]
    rw [takeWhile_length_three]
    rw [List.length_reverse]
  · intro a ha
    simp [shouldForceBreak, recordAnalysis, ha]

/-- C7 witness: three consecutive blocking records force a break; one
non-blocking record after them resets the flag. -/
theorem emotion_tracker_force_break_witness :
    shouldForceBreak
        ([blockedSample, blockedSample, blockedSample].foldl recordAnalysis
          emptyTracker) = true
    ∧ (calmSample.should_block = false
      ∧ shouldForceBreak
          (recordAnalysis
            ([blockedSample, blockedSample, blockedSample].foldl recordAnalysis
              emptyTracker) calmSample) = false) :=
  ⟨(emotion_tracker_force_break
      [blockedSample, blockedSample, blockedSample]).1.mpr (by decide),
   ⟨rfl,
    (emotion_tracker_force_break
      [blockedSample, blockedSample, blockedSample]).2 calmSample rfl⟩⟩

/-- C8: a message matching zero patterns in all six category lists yields
emotion_score 0, is_rational true, should_block false and no detected
emotions, regardless of the optional market-move, last-trade and
elapsed-time arguments. -/
theorem no_emotion_patterns_rational (msg : String) (mm : Option MarketMove)
    (lt : Option TradeResult) (ts : Option ℚ)
    (h1 : (fomoPatterns.filter (fun p => patMatches p (lowerChars msg))).length = 0)
    (h2 : (fearPatterns.filter (fun p => patMatches p (lowerChars msg))).length = 0)
    (h3 : (revengePatterns.filter (fun p => patMatches p (lowerChars msg))).length = 0)
    (h4 : (overconfidencePatterns.filter
      (fun p => patMatches p (lowerChars msg))).length = 0)
    (h5 : (greedPatterns.filter (fun p => patMatches p (lowerChars msg))).length = 0)
    (h6 : (sunkCostPatterns.filter (fun p => patMatches p (lowerChars msg))).length = 0) :
    (analyzeRequest msg mm lt ts).emotion_score = 0
    ∧ (analyzeRequest msg mm lt ts).is_rational = true
    ∧ (analyzeRequest msg mm lt ts).should_block = false
    ∧ (analyzeRequest msg mm lt ts).detected_emotions = [] := by
  have d1 : detectPattern msg fomoPatterns = 0 := by
    simp only [detectPattern]
    rw [h1]
    norm_num
  have d2 : detectPattern msg fearPatterns = 0 := by
    simp only [detectPattern]
    rw [h2]
    norm_num
  have d3 : detectPattern msg revengePatterns = 0 := by
    simp only [detectPattern]
    rw [h3]
    norm_num
  have d4 : detectPattern msg overconfidencePatterns = 0 := by
    simp only [detectPattern]
    rw [h4]
    norm_num
  have d5 : detectPattern msg greedPatterns = 0 := by
    simp only [detectPattern]
    rw [h5]
    norm_num
  have d6 : detectPattern msg sunkCostPatterns = 0 := by
    simp only [detectPattern]
    rw [h6]
    norm_num
  simp only [analyzeRequest, d1, d2, d3, d4, d5, d6]
  norm_num [roundTo_zero]

/-- C8 witness: an empty message matches no pattern. -/
theorem no_emotion_patterns_rational_witness :
    ((fomoPatterns.filter (fun p => patMatches p (lowerChars ""))).length = 0
      ∧ (fearPatterns.filter (fun p => patMatches p (lowerChars ""))).length = 0
      ∧ (revengePatterns.filter (fun p => patMatches p (lowerChars ""))).length = 0
      ∧ (overconfidencePatterns.filter
          (fun p => patMatches p (lowerChars ""))).length = 0
      ∧ (greedPatterns.filter (fun p => patMatches p (lowerChars ""))).length = 0
      ∧ (sunkCostPatterns.filter (fun p => patMatches p (lowerChars ""))).length = 0)
    ∧ ((analyzeRequest "" none none none).emotion_score = 0
      ∧ (analyzeRequest "" none none none).is_rational = true
      ∧ (analyzeRequest "" none none none).should_block = false
      ∧ (analyzeRequest "" none none none).detected_emotions = []) :=
  ⟨by decide,
   no_emotion_patterns_rational "" none none none (by decide) (by decide)
     (by decide) (by decide) (by decide) (by decide)⟩

/-- C9: for every candle series of length at least 50, the returned
bullish and bearish scores each lie independently in [0, 100]. -/
theorem market_scores_bounded (cs : List Candle) (h : 50 ≤ cs.length) :
    0 ≤ (marketAnalyze cs).bullish_score
    ∧ (marketAnalyze cs).bullish_score ≤ 100
    ∧ 0 ≤ (marketAnalyze cs).bearish_score
    ∧ (marketAnalyze cs).bearish_score ≤ 100 := by
  have hn : ¬ cs.length < 50 := by omega
  have hM : marketAnalyze cs = marketAnalyzeMain cs := by
    unfold marketAnalyze
    rw [if_neg hn]
  have hbull : (marketAnalyzeMain cs).bullish_score
      = roundTo 1 (calculateBiasScores (rsiLast cs) (analyzeMacd cs)
          (analyzeMaAlignment cs) (analyzeTrend cs).1 (analyzeVolume cs).1).1 := rfl
  have hbear : (marketAnalyzeMain cs).bearish_score
      = roundTo 1 (calculateBiasScores (rsiLast cs) (analyzeMacd cs)
          (analyzeMaAlignment cs) (analyzeTrend cs).1 (analyzeVolume cs).1).2 := rfl
  have hb := calculateBiasScores_mem (rsiLast cs) (analyzeMacd cs)
    (analyzeMaAlignment cs) (analyzeTrend cs).1 (analyzeVolume cs).1
  rw [hM]
  refine ⟨?_, ?_, ?_, ?_⟩
  · rw [hbull]
    have := le_roundTo 1 0 (calculateBiasScores (rsiLast cs) (analyzeMacd cs)
      (analyzeMaAlignment cs) (analyzeTrend cs).1 (analyzeVolume cs).1).1
      (by push_cast; linarith [hb.1])
    push_cast at this
    linarith
  · rw [hbull]
    have := roundTo_le 1 1000 (calculateBiasScores (rsiLast cs) (analyzeMacd cs)
      (analyzeMaAlignment cs) (analyzeTrend cs).1 (analyzeVolume cs).1).1
      (by push_cast; linarith [hb.2.1])
    push_cast at this
    linarith
  · rw [hbear]
    have := le_roundTo 1 0 (calculateBiasScores (rsiLast cs) (analyzeMacd cs)
      (analyzeMaAlignment cs) (analyzeTrend cs).1 (analyzeVolume cs).1).2
      (by push_cast; linarith [hb.2.2.1])
    push_cast at this
    linarith
  · rw [hbear]
    have := roundTo_le 1 1000 (calculateBiasScores (rsiLast cs) (analyzeMacd cs)
      (analyzeMaAlignment cs) (analyzeTrend cs).1 (analyzeVolume cs).1).2
      (by push_cast; linarith [hb.2.2.2])
    push_cast at this
    linarith

/-- C9 witness: a 50-row candle series. -/
theorem market_scores_bounded_witness :
    50 ≤ demoCandles.length
    ∧ (0 ≤ (marketAnalyze demoCandles).bullish_score
      ∧ (marketAnalyze demoCandles).bullish_score ≤ 100
      ∧ 0 ≤ (marketAnalyze demoCandles).bearish_score
      ∧ (marketAnalyze demoCandles).bearish_score ≤ 100) :=
  ⟨by decide, market_scores_bounded demoCandles (by decide)⟩

/-- C10: `quick_evaluate` returns exactly the expected value, risk:reward,
win probability, kelly fraction and confidence of the EVAnalysis that
`analyze` produces on the TradeSetup built from its arguments with the empty
market context, and its verdict string is the fixed image of that analysis's
recommendation under the verdict table: the wrapper adds no computation. -/
theorem quick_evaluate_refines (entry stop target : ℚ) (side symbol : String) :
    (quickEvaluate entry stop target side symbol).ev
        = (evAnalyze (quickSetup entry stop target side symbol)
            emptyContext).expected_value
    ∧ (quickEvaluate entry stop target side symbol).rr
        = (evAnalyze (quickSetup entry stop target side symbol)
            emptyContext).riskReward
    ∧ (quickEvaluate entry stop target side symbol).win_prob
        = (evAnalyze (quickSetup entry stop target side symbol)
            emptyContext).win_probability
    ∧ (quickEvaluate entry stop target side symbol).kelly
        = (evAnalyze (quickSetup entry stop target side symbol)
            emptyContext).kelly_fraction
    ∧ (quickEvaluate entry stop target side symbol).verdict
        = verdictMap (evAnalyze (quickSetup entry stop target side symbol)
            emptyContext).recommendation
    ∧ (quickEvaluate entry stop target side symbol).confidence
        = confidenceValue (evAnalyze (quickSetup entry stop target side symbol)
            emptyContext).confidence :=
  ⟨rfl, rfl, rfl, rfl, rfl, rfl⟩
